import Mathlib

/-!
Shallow embedding of `watson_developer_cloud_service.py`: the base client of a
Watson-style SDK.  Python values that flow through the client (None, strings,
booleans, ints, JSON lists and string-keyed dicts) are embedded as the
inductive type `Val`; insertion-ordered Python dicts become association lists;
the HTTP transport boundary is made explicit by splitting `request` into the
pure part before dispatch (`prepare_request`) and the pure classification of
the received response (`classify_response`).  Fallible operations (raised
exceptions) are embedded with `Except`.
-/

namespace Watson

/-- A Python value as it flows through the client: `None`, `str`, `bool`,
`int`, `list`, and string-keyed `dict` (the JSON-shaped fragment the SDK
manipulates). -/
inductive Val where
  | vnone : Val
  | vstr : String → Val
  | vbool : Bool → Val
  | vint : Int → Val
  | vlist : List Val → Val
  | vdict : List (String × Val) → Val
deriving Repr

mutual

/-- Decidable equality on `Val` (the nested inductive prevents deriving it). -/
def decEqVal : (a b : Val) → Decidable (a = b)
  | .vnone, .vnone => isTrue rfl
  | .vstr a, .vstr b =>
    if h : a = b then isTrue (by rw [h]) else isFalse (by intro hh; cases hh; exact h rfl)
  | .vbool a, .vbool b =>
    if h : a = b then isTrue (by rw [h]) else isFalse (by intro hh; cases hh; exact h rfl)
  | .vint a, .vint b =>
    if h : a = b then isTrue (by rw [h]) else isFalse (by intro hh; cases hh; exact h rfl)
  | .vlist a, .vlist b =>
    match decEqValList a b with
    | isTrue h => isTrue (by rw [h])
    | isFalse h => isFalse (by intro hh; cases hh; exact h rfl)
  | .vdict a, .vdict b =>
    match decEqValDict a b with
    | isTrue h => isTrue (by rw [h])
    | isFalse h => isFalse (by intro hh; cases hh; exact h rfl)
  | .vnone, .vstr _ => isFalse (by intro h; cases h)
  | .vnone, .vbool _ => isFalse (by intro h; cases h)
  | .vnone, .vint _ => isFalse (by intro h; cases h)
  | .vnone, .vlist _ => isFalse (by intro h; cases h)
  | .vnone, .vdict _ => isFalse (by intro h; cases h)
  | .vstr _, .vnone => isFalse (by intro h; cases h)
  | .vstr _, .vbool _ => isFalse (by intro h; cases h)
  | .vstr _, .vint _ => isFalse (by intro h; cases h)
  | .vstr _, .vlist _ => isFalse (by intro h; cases h)
  | .vstr _, .vdict _ => isFalse (by intro h; cases h)
  | .vbool _, .vnone => isFalse (by intro h; cases h)
  | .vbool _, .vstr _ => isFalse (by intro h; cases h)
  | .vbool _, .vint _ => isFalse (by intro h; cases h)
  | .vbool _, .vlist _ => isFalse (by intro h; cases h)
  | .vbool _, .vdict _ => isFalse (by intro h; cases h)
  | .vint _, .vnone => isFalse (by intro h; cases h)
  | .vint _, .vstr _ => isFalse (by intro h; cases h)
  | .vint _, .vbool _ => isFalse (by intro h; cases h)
  | .vint _, .vlist _ => isFalse (by intro h; cases h)
  | .vint _, .vdict _ => isFalse (by intro h; cases h)
  | .vlist _, .vnone => isFalse (by intro h; cases h)
  | .vlist _, .vstr _ => isFalse (by intro h; cases h)
  | .vlist _, .vbool _ => isFalse (by intro h; cases h)
  | .vlist _, .vint _ => isFalse (by intro h; cases h)
  | .vlist _, .vdict _ => isFalse (by intro h; cases h)
  | .vdict _, .vnone => isFalse (by intro h; cases h)
  | .vdict _, .vstr _ => isFalse (by intro h; cases h)
  | .vdict _, .vbool _ => isFalse (by intro h; cases h)
  | .vdict _, .vint _ => isFalse (by intro h; cases h)
  | .vdict _, .vlist _ => isFalse (by intro h; cases h)

/-- Decidable equality on lists of `Val`. -/
def decEqValList : (a b : List Val) → Decidable (a = b)
  | [], [] => isTrue rfl
  | [], _ :: _ => isFalse (by intro h; cases h)
  | _ :: _, [] => isFalse (by intro h; cases h)
  | x :: xs, y :: ys =>
    match decEqVal x y with
    | isFalse h => isFalse (by intro hh; cases hh; exact h rfl)
    | isTrue h1 =>
      match decEqValList xs ys with
      | isTrue h2 => isTrue (by rw [h1, h2])
      | isFalse h => isFalse (by intro hh; cases hh; exact h rfl)

/-- Decidable equality on string-keyed association lists of `Val`. -/
def decEqValDict : (a b : List (String × Val)) → Decidable (a = b)
  | [], [] => isTrue rfl
  | [], _ :: _ => isFalse (by intro h; cases h)
  | _ :: _, [] => isFalse (by intro h; cases h)
  | (k1, v1) :: xs, (k2, v2) :: ys =>
    if hk : k1 = k2 then
      match decEqVal v1 v2 with
      | isFalse h => isFalse (by intro hh; cases hh; exact h rfl)
      | isTrue h1 =>
        match decEqValDict xs ys with
        | isTrue h2 => isTrue (by rw [hk, h1, h2])
        | isFalse h => isFalse (by intro hh; cases hh; exact h rfl)
    else isFalse (by intro hh; cases hh; exact hk rfl)

end

instance : DecidableEq Val := decEqVal

instance {ε α : Type} [DecidableEq ε] [DecidableEq α] : DecidableEq (Except ε α) := by
  intro a b
  cases a with
  | ok x =>
    cases b with
    | ok y =>
      exact if h : x = y then isTrue (by rw [h]) else isFalse (by intro hh; cases hh; exact h rfl)
    | error y => exact isFalse (by intro h; cases h)
  | error x =>
    cases b with
    | ok y => exact isFalse (by intro h; cases h)
    | error y =>
      exact if h : x = y then isTrue (by rw [h]) else isFalse (by intro hh; cases hh; exact h rfl)

/-- Python `d[k]` lookup on a dict (first binding wins, as keys are unique in
a real Python dict). -/
def dictLookup (d : List (String × Val)) (k : String) : Option Val :=
  match d with
  | [] => none
  | (k2, v) :: rest => if k2 = k then some v else dictLookup rest k

/-- Python `k in d` on a dict. -/
def dictMember (d : List (String × Val)) (k : String) : Bool :=
  (dictLookup d k).isSome

/-- Python `d[k] = v`: update the binding in place if the key exists,
otherwise append it (insertion order preserved). -/
def dictSet (d : List (String × Val)) (k : String) (v : Val) : List (String × Val) :=
  if dictMember d k then
    d.map (fun p => if p.1 = k then (k, v) else p)
  else d ++ [(k, v)]

/-- Python truthiness of a `Val` (`bool(v)`). -/
def truthy : Val → Bool
  | .vnone => false
  | .vstr s => s != ""
  | .vbool b => b
  | .vint n => n != 0
  | .vlist l => !l.isEmpty
  | .vdict d => !d.isEmpty

/-- Python `v == lit` where `lit` is a string literal: true exactly for an
equal string (a non-string value never equals a string literal). -/
def eqStr : Val → String → Bool
  | .vstr s, t => s == t
  | _, _ => false

/-- `_remove_null_values`: on a dict, drop the entries whose value is `None`;
any non-dict argument is returned unchanged. -/
def remove_null_values : Val → Val
  | .vdict d => .vdict (d.filter (fun p => p.2 != Val.vnone))
  | v => v

/-- `_convert_boolean_value`: a `bool` becomes the int `1`/`0`; anything else
is unchanged. -/
def convert_boolean_value : Val → Val
  | .vbool b => .vint (if b then 1 else 0)
  | v => v

/-- `_convert_boolean_values`: apply `_convert_boolean_value` to every value
of a dict; any non-dict argument is returned unchanged. -/
def convert_boolean_values : Val → Val
  | .vdict d => .vdict (d.map (fun p => (p.1, convert_boolean_value p.2)))
  | v => v

/-- The exceptions the constructor-side code can raise: `WatsonException`,
`WatsonInvalidArgument`, and the built-in container errors raised by the
registry indexing `services[name][0]["credentials"]` or by misusing a
non-dict where a dict is required. -/
inductive WError where
  | watsonException : String → WError
  | watsonInvalidArgument : String → WError
  | keyError : String → WError
  | indexError : WError
  | typeError : WError
deriving Repr, DecidableEq

/-- The mutable per-client state: `self.url`, `self.jar` (the cookie jar,
`none` before any setter ran; a `CookieJar` object is modelled by an
allocation id so distinct allocations are distinguishable), `self.api_key`,
`self.username`, `self.password`, and `self.vcap_service_credentials`. -/
structure ClientState where
  url : Val
  jar : Option Nat
  api_key : Val
  username : Val
  password : Val
  vcap_service_credentials : Option Val
deriving Repr, DecidableEq

/-- Allocation id of a fresh `CookieJar()`: distinct from the jar currently
held by the state. -/
def freshJar (s : ClientState) : Nat :=
  match s.jar with
  | none => 0
  | some n => n + 1

/-- `set_username_and_password`: sentinel placeholders become `None`, both
fields are stored, and a fresh cookie jar is allocated. -/
def set_username_and_password (s : ClientState) (username password : Val) : ClientState :=
  let username := if eqStr username "YOUR SERVICE USERNAME" then Val.vnone else username
  let password := if eqStr password "YOUR SERVICE PASSWORD" then Val.vnone else password
  { s with username := username, password := password, jar := some (freshJar s) }

/-- `set_api_key`: the sentinel placeholder becomes `None`, the key is stored,
and a fresh cookie jar is allocated. -/
def set_api_key (s : ClientState) (api_key : Val) : ClientState :=
  let api_key := if eqStr api_key "YOUR API KEY" then Val.vnone else api_key
  { s with api_key := api_key, jar := some (freshJar s) }

/-- `set_url`: assigns `self.url` and nothing else. -/
def set_url (s : ClientState) (url : Val) : ClientState :=
  { s with url := url }

/-- `unpack_id`: `dictionary[label_id]` when the argument is a dict containing
the key, otherwise the argument unchanged. -/
def unpack_id (dictionary : Val) (label_id : String) : Val :=
  match dictionary with
  | .vdict d =>
    match dictLookup d label_id with
    | some v => v
    | none => dictionary
  | _ => dictionary

/-- `load_from_vcap_services`: the VCAP_SERVICES environment document, decoded
from JSON, is passed in as an optional registry (a JSON object mapping service
names to arrays of bindings, per the documented interface shape).  Absent
variable or absent service name yields `None`; otherwise the code evaluates
`services[service_name][0]["credentials"]`, whose failures on a malformed
registry surface as container errors. -/
def load_from_vcap_services (service_name : String)
    (vcap_services : Option (List (String × Val))) : Except WError (Option Val) :=
  match vcap_services with
  | none => .ok none
  | some services =>
    match dictLookup services service_name with
    | none => .ok none
    | some (Val.vlist []) => .error .indexError
    | some (Val.vlist (first :: _)) =>
      match first with
      | Val.vdict binding =>
        match dictLookup binding "credentials" with
        | some creds => .ok (some creds)
        | none => .error (.keyError "credentials")
      | _ => .error .typeError
    | some _ => .error .typeError

/-- First block of `__init__`: initialise the fields, then either reject the
api_key/username/password combination, or store the api key, or store the
username and password (sentinel detection included via the setters). -/
def initial_state (url username password api_key : Val) : Except WError ClientState :=
  let s0 : ClientState :=
    { url := url, jar := none, api_key := Val.vnone,
      username := Val.vnone, password := Val.vnone,
      vcap_service_credentials := none }
  if api_key ≠ Val.vnone then
    if username ≠ Val.vnone ∨ password ≠ Val.vnone then
      .error (.watsonInvalidArgument "Cannot set api_key and username and password together")
    else
      .ok (set_api_key s0 api_key)
  else
    .ok (set_username_and_password s0 username password)

/-- Second block of `__init__`: when `use_vcap_services` is set and neither
the resolved username nor the resolved api key is truthy, consult the
registry; a dict-shaped credentials object overwrites `url` and any of
`username`/`password`/`apikey` it contains.  `self.url = credentials['url']`
raises `KeyError` when the binding has no url. -/
def apply_vcap_services (vcap_services_name : String) (use_vcap_services : Bool)
    (vcap_env : Option (List (String × Val))) (s : ClientState) : Except WError ClientState :=
  if use_vcap_services ∧ ¬ truthy s.username ∧ ¬ truthy s.api_key then
    match load_from_vcap_services vcap_services_name vcap_env with
    | .error e => .error e
    | .ok creds =>
      match creds with
      | some (Val.vdict c) =>
        let s := { s with vcap_service_credentials := some (Val.vdict c) }
        match dictLookup c "url" with
        | none => .error (.keyError "url")
        | some u =>
          let s := { s with url := u }
          let s := match dictLookup c "username" with
                   | some v => { s with username := v }
                   | none => s
          let s := match dictLookup c "password" with
                   | some v => { s with password := v }
                   | none => s
          let s := match dictLookup c "apikey" with
                   | some v => { s with api_key := v }
                   | none => s
          .ok s
      | _ => .ok { s with vcap_service_credentials := creds }
  else .ok s

/-- The credentials-missing message raised by the final validation. -/
def credentialsMissingMsg : String :=
  "You must specific your username and password service credentials " ++
    "(Note: these are different from your Bluemix id)"

/-- Final block of `__init__`: the client is rejected when username or
password is `None` while api_key is also `None`. -/
def validate_credentials (s : ClientState) : Except WError ClientState :=
  if (s.username = Val.vnone ∨ s.password = Val.vnone) ∧ s.api_key = Val.vnone then
    .error (.watsonException credentialsMissingMsg)
  else .ok s

/-- `WatsonDeveloperCloudService.__init__` as a whole: field initialisation
and explicit-credential handling, then the registry step, then the final
validation. -/
def construct (vcap_services_name : String) (url username password : Val)
    (use_vcap_services : Bool) (api_key : Val)
    (vcap_env : Option (List (String × Val))) : Except WError ClientState :=
  match initial_state url username password api_key with
  | .error e => .error e
  | .ok s1 =>
    match apply_vcap_services vcap_services_name use_vcap_services vcap_env s1 with
    | .error e => .error e
    | .ok s2 => validate_credentials s2

/-- An HTTP response as the classification code sees it: the status code and
the result of `response.json()` (`none` when the body does not decode). -/
structure HttpResponse where
  status_code : Nat
  body : Option Val
deriving Repr, DecidableEq

/-- `_get_error_message`: start from `'Unknown error'`; on a dict body read
`error`, then let `error_message` override it.  Every failure inside the
`try` (undecodable body, non-dict body whose membership test or indexing
raises) is swallowed by the bare `except`, leaving `'Unknown error'`. -/
def get_error_message (response : HttpResponse) : Val :=
  match response.body with
  | some (Val.vdict ej) =>
    let m := Val.vstr "Unknown error"
    let m := match dictLookup ej "error" with
             | some v => v
             | none => m
    let m := match dictLookup ej "error_message" with
             | some v => v
             | none => m
    m
  | _ => Val.vstr "Unknown error"

/-- The outcomes of classifying a response raised as exceptions:
`WatsonException` together with the value of `response.status_code` at raise
time (mutated to 400/401 in the disguised-error branch), the decode error of
`response.json()` on a 2xx non-JSON body, and the `TypeError` of
concatenating a non-string message or probing a non-dict body. -/
inductive ClassifiedError where
  | serviceError : String → Nat → ClassifiedError
  | jsonDecodeError : ClassifiedError
  | typeError : ClassifiedError
deriving Repr, DecidableEq

/-- A successful classification: the decoded JSON body (`accept_json` true) or
the raw response object. -/
inductive Outcome where
  | jsonBody : Val → Outcome
  | raw : HttpResponse → Outcome
deriving Repr, DecidableEq

/-- Python `'status' in v` for a non-dict `v`: substring test on a string,
element test on a list, `TypeError` otherwise. -/
def py_in_status : Val → Except ClassifiedError Bool
  | .vstr s => .ok (decide ((s.splitOn "status").length > 1))
  | .vlist l => .ok (l.any (fun v => eqStr v "status"))
  | _ => .error .typeError

/-- The response-interpretation tail of `request` (everything after the
`requests.request` call): 2xx with `accept_json` decodes the body and turns a
`status == 'ERROR'` marker into an error with status 400 (401 when
`statusInfo` is `'invalid-api-key'`) and message `'Error: ' + statusInfo`
(default `'Unknown error'`); 2xx without `accept_json` returns the raw
response; a non-2xx status raises
`'Error: ' + message + ', Code: ' + str(status_code)`. -/
def classify_response (accept_json : Bool) (response : HttpResponse) :
    Except ClassifiedError Outcome :=
  if 200 ≤ response.status_code ∧ response.status_code ≤ 299 then
    if accept_json then
      match response.body with
      | none => .error .jsonDecodeError
      | some response_json =>
        match response_json with
        | Val.vdict d =>
          if dictMember d "status" ∧ eqStr ((dictLookup d "status").getD Val.vnone) "ERROR" then
            let error_message : Val := Val.vstr "Unknown error"
            let error_message := match dictLookup d "statusInfo" with
                                 | some v => v
                                 | none => error_message
            let status : Nat := if eqStr error_message "invalid-api-key" then 401 else 400
            match error_message with
            | Val.vstr m => .error (.serviceError ("Error: " ++ m) status)
            | _ => .error .typeError
          else .ok (.jsonBody (Val.vdict d))
        | other =>
          match py_in_status other with
          | .error e => .error e
          | .ok b => if b then .error .typeError else .ok (.jsonBody other)
    else .ok (.raw response)
  else
    let error_message : Val :=
      if response.status_code = 401 then
        Val.vstr "Unauthorized: Access is denied due to invalid credentials"
      else get_error_message response
    match error_message with
    | Val.vstr m =>
      .error (.serviceError ("Error: " ++ m ++ ", Code: " ++ toString response.status_code)
        response.status_code)
    | _ => .error .typeError

/-- The fully assembled call handed to `requests.request`: method, composed
url, sanitized headers/params/json/data, the basic-auth tuple (or `None`) and
the cookie jar. -/
structure PreparedRequest where
  method : String
  full_url : String
  headers : Val
  params : Val
  json : Val
  data : Val
  auth : Option (Val × Val)
  cookies : Option Nat
deriving Repr, DecidableEq

/-- The pure head of `request` (everything before the `requests.request`
call): compose `self.url + url`, merge the `accept: application/json` header
under caller headers when `accept_json` is set, drop `None`-valued entries
from each of the four payload channels, attach basic auth when both username
and password are truthy, and add the `apikey` query parameter when
`self.api_key is not None` (creating the params dict if it was `None`). -/
def prepare_request (s : ClientState) (method : String) (url : String) (accept_json : Bool)
    (headers params json data : Val) : Except WError PreparedRequest :=
  match s.url with
  | Val.vstr base =>
    let full_url := base ++ url
    let headersE : Except WError Val :=
      if accept_json then
        let json_headers : List (String × Val) := [("accept", Val.vstr "application/json")]
        if truthy headers then
          match headers with
          | Val.vdict h => .ok (Val.vdict (h.foldl (fun acc p => dictSet acc p.1 p.2) json_headers))
          | _ => .error .typeError
        else .ok (Val.vdict json_headers)
      else .ok headers
    match headersE with
    | .error e => .error e
    | .ok headers =>
      let headers := remove_null_values headers
      let params := remove_null_values params
      let json := remove_null_values json
      let data := remove_null_values data
      let auth : Option (Val × Val) :=
        if truthy s.username && truthy s.password then some (s.username, s.password) else none
      let paramsE : Except WError Val :=
        if s.api_key ≠ Val.vnone then
          let params := if params = Val.vnone then Val.vdict [] else params
          match params with
          | Val.vdict d => .ok (Val.vdict (dictSet d "apikey" s.api_key))
          | _ => .error .typeError
        else .ok params
      match paramsE with
      | .error e => .error e
      | .ok params =>
        .ok { method := method, full_url := full_url, headers := headers, params := params,
              json := json, data := data, auth := auth, cookies := s.jar }
  | _ => .error .typeError

/-- The call `_alchemy_html_request` hands to `self.request`. -/
structure AlchemyHtmlCall where
  method : Val
  method_url : Val
  params : Val
  data : Val
  headers : Val
  accept_json : Bool
deriving Repr, DecidableEq

/-- `_alchemy_html_request` up to its `self.request` call: default the params
dict, force `outputMode=json`, fix the form-urlencoded content type, build the
`{html, text}` form body, coerce boolean params, and when no override
`method_url` is given route on the truthiness of `url`, `html`, `text` in that
order (adding `url` to the params in the first case), raising
`WatsonInvalidArgument` when none is given. -/
def alchemy_html_request (method_name url html text params method method_url : Val) :
    Except WError AlchemyHtmlCall :=
  let params := if params = Val.vnone then Val.vdict [] else params
  match params with
  | Val.vdict d0 =>
    let d := dictSet d0 "outputMode" (Val.vstr "json")
    let headers := Val.vdict [("content-type", Val.vstr "application/x-www-form-urlencoded")]
    let url_encoded_params := Val.vdict [("html", html), ("text", text)]
    let d := d.map (fun p => (p.1, convert_boolean_value p.2))
    if method_url = Val.vnone then
      if truthy url then
        match method_name with
        | Val.vstr mn =>
          .ok { method := method, method_url := Val.vstr ("/url/URL" ++ mn),
                params := Val.vdict (dictSet d "url" url), data := url_encoded_params,
                headers := headers, accept_json := true }
        | _ => .error .typeError
      else if truthy html then
        match method_name with
        | Val.vstr mn =>
          .ok { method := method, method_url := Val.vstr ("/html/HTML" ++ mn),
                params := Val.vdict d, data := url_encoded_params,
                headers := headers, accept_json := true }
        | _ => .error .typeError
      else if truthy text then
        match method_name with
        | Val.vstr mn =>
          .ok { method := method, method_url := Val.vstr ("/text/Text" ++ mn),
                params := Val.vdict d, data := url_encoded_params,
                headers := headers, accept_json := true }
        | _ => .error .typeError
      else .error (.watsonInvalidArgument "url, html or text must be specified")
    else
      .ok { method := method, method_url := method_url, params := Val.vdict d,
            data := url_encoded_params, headers := headers, accept_json := true }
  | _ => .error .typeError

/-- C9: `unpack_id` returns the mapping's value at the key when the input is
a dict containing the key, and otherwise returns the input unchanged; in
particular `unpack_id {"id": "abc"} "id" = "abc"` and
`unpack_id "abc" "id" = "abc"`. -/
theorem c9_unpack_id_spec (v : Val) (k : String) :
    (∀ d x, v = Val.vdict d → dictLookup d k = some x → unpack_id v k = x) ∧
    (∀ d, v = Val.vdict d → dictLookup d k = none → unpack_id v k = v) ∧
    ((∀ d, v ≠ Val.vdict d) → unpack_id v k = v) ∧
    unpack_id (Val.vdict [("id", Val.vstr "abc")]) "id" = Val.vstr "abc" ∧
    unpack_id (Val.vstr "abc") "id" = Val.vstr "abc" := by
  refine ⟨?_, ?_, ?_, by decide, by decide⟩
  · rintro d x rfl h
    simp [unpack_id, h]
  · rintro d rfl h
    simp [unpack_id, h]
  · intro hnd
    cases v with
    | vdict d => exact absurd rfl (hnd d)
    | vnone => rfl
    | vstr s => rfl
    | vbool b => rfl
    | vint n => rfl
    | vlist l => rfl

/-- C9 witness: the theorem applied at a dict containing the key and at a
non-dict value. -/
theorem c9_unpack_id_spec_witness :
    unpack_id (Val.vdict [("a", Val.vint 1)]) "a" = Val.vint 1 ∧
    unpack_id (Val.vint 7) "a" = Val.vint 7 :=
  ⟨(c9_unpack_id_spec (Val.vdict [("a", Val.vint 1)]) "a").1 [("a", Val.vint 1)]
      (Val.vint 1) rfl (by decide),
   (c9_unpack_id_spec (Val.vint 7) "a").2.2.1 (by intro d h; cases h)⟩

/-- C10: `set_url` changes only the base url — the cookie jar object, the
username, the password and the api key are unchanged — while
`set_username_and_password` and `set_api_key` always replace the cookie jar
with a fresh (distinct) one. -/
theorem c10_set_url_frame (s : ClientState) (u nu np nk : Val) :
    (set_url s u).jar = s.jar ∧ (set_url s u).username = s.username ∧
    (set_url s u).password = s.password ∧ (set_url s u).api_key = s.api_key ∧
    (set_url s u).url = u ∧
    (set_username_and_password s nu np).jar ≠ s.jar ∧
    (set_api_key s nk).jar ≠ s.jar := by
  refine ⟨rfl, rfl, rfl, rfl, rfl, ?_, ?_⟩ <;>
  · show some (freshJar s) ≠ s.jar
    unfold freshJar
    cases s.jar with
    | none => simp
    | some n => simp

/-- C1 counterexample: with explicit empty-string username and password
(which are not "non-empty"), no api key and no registry, the claim's
condition of an incomplete credential set holds, yet construction succeeds
instead of failing with a credentials-missing error: the code checks for
`None`, not for emptiness. -/
theorem c1_counterexample :
    truthy (Val.vstr "") = false ∧
    construct "watson" (Val.vstr "http://host") (Val.vstr "") (Val.vstr "") false
        Val.vnone none =
      Except.ok (ClientState.mk (Val.vstr "http://host") (some 0) Val.vnone
        (Val.vstr "") (Val.vstr "") none) := by
  constructor
  · decide
  · decide

/-- C2 counterexample: a client constructed in ApiKey mode, after one
`set_username_and_password` call, has username, password and api_key all set
(the setter does not clear the api key), and a single `request` call on it
attaches both the basic-auth tuple and the `apikey` query parameter. -/
theorem c2_counterexample :
    construct "w" (Val.vstr "http://h") Val.vnone Val.vnone false (Val.vstr "k") none =
      Except.ok (ClientState.mk (Val.vstr "http://h") (some 0) (Val.vstr "k")
        Val.vnone Val.vnone none) ∧
    set_username_and_password
        (ClientState.mk (Val.vstr "http://h") (some 0) (Val.vstr "k")
          Val.vnone Val.vnone none) (Val.vstr "u") (Val.vstr "p") =
      ClientState.mk (Val.vstr "http://h") (some 1) (Val.vstr "k")
        (Val.vstr "u") (Val.vstr "p") none ∧
    prepare_request
        (ClientState.mk (Val.vstr "http://h") (some 1) (Val.vstr "k")
          (Val.vstr "u") (Val.vstr "p") none) "GET" "/x" false
        Val.vnone Val.vnone Val.vnone Val.vnone =
      Except.ok (PreparedRequest.mk "GET" "http://h/x" Val.vnone
        (Val.vdict [("apikey", Val.vstr "k")]) Val.vnone Val.vnone
        (some (Val.vstr "u", Val.vstr "p")) (some 1)) := by
  refine ⟨by decide, by decide, by decide⟩

/-- C7 counterexample: with an explicitly supplied password `"secret"` but no
username, the registry step runs and its binding's password `"other"`
overwrites the explicit one — the explicitly supplied password does not
survive the registry step. -/
theorem c7_counterexample :
    construct "w" (Val.vstr "http://h") Val.vnone (Val.vstr "secret") true Val.vnone
        (some [("w", Val.vlist [Val.vdict [("credentials", Val.vdict
          [("url", Val.vstr "https://svc"), ("username", Val.vstr "bu"),
           ("password", Val.vstr "other")])]])]) =
      Except.ok (ClientState.mk (Val.vstr "https://svc") (some 0) Val.vnone
        (Val.vstr "bu") (Val.vstr "other")
        (some (Val.vdict [("url", Val.vstr "https://svc"),
          ("username", Val.vstr "bu"), ("password", Val.vstr "other")]))) ∧
    Val.vstr "other" ≠ Val.vstr "secret" := by
  refine ⟨by decide, by decide⟩

/-- A state produced by the first `__init__` block has either no api key
(basic branch) or no username and no password (api-key branch). -/
theorem initial_state_cases (url username password api_key : Val) (s1 : ClientState)
    (h : initial_state url username password api_key = Except.ok s1) :
    s1.api_key = Val.vnone ∨ (s1.username = Val.vnone ∧ s1.password = Val.vnone) := by
  unfold initial_state at h
  split at h
  · split at h
    · cases h
    · cases h
      right
      exact ⟨rfl, rfl⟩
  · cases h
    left
    rfl

/-- With no registry document, the registry step never changes the
credential fields. -/
theorem apply_vcap_none_fields (name : String) (uv : Bool) (s s2 : ClientState)
    (h : apply_vcap_services name uv none s = Except.ok s2) :
    s2.username = s.username ∧ s2.password = s.password ∧ s2.api_key = s.api_key := by
  unfold apply_vcap_services load_from_vcap_services at h
  split at h
  · cases h
    exact ⟨rfl, rfl, rfl⟩
  · cases h
    exact ⟨rfl, rfl, rfl⟩

/-- `construct` reduces to the final validation once the first two stages are
known to succeed. -/
theorem construct_stages (name : String) (url username password api_key : Val)
    (use_vcap : Bool) (env : Option (List (String × Val))) (s1 s2 : ClientState)
    (h1 : initial_state url username password api_key = Except.ok s1)
    (h2 : apply_vcap_services name use_vcap env s1 = Except.ok s2) :
    construct name url username password use_vcap api_key env = validate_credentials s2 := by
  unfold construct
  rw [h1]
  show (match apply_vcap_services name use_vcap env s1 with
        | Except.error e => Except.error e
        | Except.ok s2 => validate_credentials s2) = validate_credentials s2
  rw [h2]

/-- `construct` propagates a failure of the first stage. -/
theorem construct_stage_err1 (name : String) (url username password api_key : Val)
    (use_vcap : Bool) (env : Option (List (String × Val))) (e : WError)
    (h1 : initial_state url username password api_key = Except.error e) :
    construct name url username password use_vcap api_key env = Except.error e := by
  unfold construct
  rw [h1]

/-- `construct` propagates a failure of the registry stage. -/
theorem construct_stage_err2 (name : String) (url username password api_key : Val)
    (use_vcap : Bool) (env : Option (List (String × Val))) (s1 : ClientState) (e : WError)
    (h1 : initial_state url username password api_key = Except.ok s1)
    (h2 : apply_vcap_services name use_vcap env s1 = Except.error e) :
    construct name url username password use_vcap api_key env = Except.error e := by
  unfold construct
  rw [h1]
  show (match apply_vcap_services name use_vcap env s1 with
        | Except.error e => Except.error e
        | Except.ok s2 => validate_credentials s2) = Except.error e
  rw [h2]

/-- The final validation returns the state unchanged when it passes. -/
theorem validate_credentials_ok (s2 s : ClientState)
    (h : validate_credentials s2 = Except.ok s) : s = s2 := by
  unfold validate_credentials at h
  split at h
  · cases h
  · injection h with h
    exact h.symm

/-- C5: providing an api key (even the placeholder) together with a username
or a password makes construction fail with `WatsonInvalidArgument`, for every
registry alike (so before any registry lookup can matter). -/
theorem c5_api_key_mutual_exclusion (name : String) (url username password api_key : Val)
    (use_vcap : Bool) (env : Option (List (String × Val)))
    (hk : api_key ≠ Val.vnone) (hup : username ≠ Val.vnone ∨ password ≠ Val.vnone) :
    construct name url username password use_vcap api_key env =
      Except.error (WError.watsonInvalidArgument
        "Cannot set api_key and username and password together") := by
  rcases hup with h | h <;> simp [construct, initial_state, hk, h]

/-- C5 witness: the placeholder api key together with a username, in the
presence of a registry. -/
theorem c5_api_key_mutual_exclusion_witness :
    construct "w" (Val.vstr "h") (Val.vstr "u") Val.vnone true (Val.vstr "YOUR API KEY")
        (some [("w", Val.vlist [])]) =
      Except.error (WError.watsonInvalidArgument
        "Cannot set api_key and username and password together") :=
  c5_api_key_mutual_exclusion "w" (Val.vstr "h") (Val.vstr "u") Val.vnone
    (Val.vstr "YOUR API KEY") true (some [("w", Val.vlist [])]) (by decide)
    (Or.inl (by decide))

/-- C7 (amended): the registry is consulted only when neither a usable
(truthy) username nor a usable api key was resolved from the explicit
arguments — when either is usable the registry step returns the state
untouched for every registry, so a usable explicit username or api key is
never overwritten.  (An explicit password with no usable username does not
enjoy this protection, per the counterexample.) -/
theorem c7_registry_skipped_when_resolved (name : String) (use_vcap : Bool)
    (env : Option (List (String × Val))) (s : ClientState)
    (h : truthy s.username = true ∨ truthy s.api_key = true) :
    apply_vcap_services name use_vcap env s = Except.ok s := by
  unfold apply_vcap_services
  rcases h with h | h <;> simp [h]

/-- C7 witness: a state with a usable username passes the registry step
untouched although the registry holds conflicting credentials. -/
theorem c7_registry_skipped_when_resolved_witness :
    apply_vcap_services "w" true
        (some [("w", Val.vlist [Val.vdict [("credentials", Val.vdict
          [("url", Val.vstr "https://other"), ("password", Val.vstr "other")])]])])
        (ClientState.mk (Val.vstr "http://h") (some 0) Val.vnone
          (Val.vstr "u") (Val.vstr "p") none) =
      Except.ok (ClientState.mk (Val.vstr "http://h") (some 0) Val.vnone
        (Val.vstr "u") (Val.vstr "p") none) :=
  c7_registry_skipped_when_resolved "w" true
    (some [("w", Val.vlist [Val.vdict [("credentials", Val.vdict
      [("url", Val.vstr "https://other"), ("password", Val.vstr "other")])]])])
    (ClientState.mk (Val.vstr "http://h") (some 0) Val.vnone
      (Val.vstr "u") (Val.vstr "p") none)
    (Or.inl (by decide))

/-- C2 (amended): immediately after a construction that used no registry
document, Basic and ApiKey mode are never simultaneously active; the
simultaneous activation of the counterexample needs a later setter call
(the setters do not clear the other mode's fields). -/
theorem c2_exclusive_after_construction (name : String) (url username password api_key : Val)
    (use_vcap : Bool) (s : ClientState)
    (h : construct name url username password use_vcap api_key none = Except.ok s) :
    ¬ (truthy s.username = true ∧ truthy s.password = true ∧ s.api_key ≠ Val.vnone) := by
  rintro ⟨hu, hp, hk⟩
  cases hi : initial_state url username password api_key with
  | error e =>
    rw [construct_stage_err1 name url username password api_key use_vcap none e hi] at h
    cases h
  | ok s1 =>
    cases ha : apply_vcap_services name use_vcap none s1 with
    | error e =>
      rw [construct_stage_err2 name url username password api_key use_vcap none s1 e hi ha] at h
      cases h
    | ok s2 =>
      rw [construct_stages name url username password api_key use_vcap none s1 s2 hi ha] at h
      have hs := validate_credentials_ok s2 s h
      obtain ⟨h1, h2, h3⟩ := apply_vcap_none_fields name use_vcap s1 s2 ha
      rcases initial_state_cases url username password api_key s1 hi with hA | hB
      · subst hs
        rw [h3, hA] at hk
        exact hk rfl
      · subst hs
        rw [h1, hB.1] at hu
        simp [truthy] at hu

/-- C2 witness: a basic-mode construction satisfies the exclusivity. -/
theorem c2_exclusive_after_construction_witness :
    ¬ (truthy (ClientState.mk (Val.vstr "h") (some 0) Val.vnone
          (Val.vstr "u") (Val.vstr "p") none).username = true ∧
       truthy (ClientState.mk (Val.vstr "h") (some 0) Val.vnone
          (Val.vstr "u") (Val.vstr "p") none).password = true ∧
       (ClientState.mk (Val.vstr "h") (some 0) Val.vnone
          (Val.vstr "u") (Val.vstr "p") none).api_key ≠ Val.vnone) :=
  c2_exclusive_after_construction "w" (Val.vstr "h") (Val.vstr "u") (Val.vstr "p")
    Val.vnone true
    (ClientState.mk (Val.vstr "h") (some 0) Val.vnone (Val.vstr "u") (Val.vstr "p") none)
    (by decide)

/-- C1 (amended): construction fails with the credentials-missing
`WatsonException` exactly when, after placeholder removal and the registry
step, the username or the password is absent (`None`) while the api key is
also absent — presence, not non-emptiness, is what the final validation
checks; in particular the sentinel username with a real password and no
api-key or registry fallback fails with the credentials-missing error. -/
theorem c1_credentials_missing (name : String) (url username password api_key : Val)
    (use_vcap : Bool) (env : Option (List (String × Val))) (s1 s2 : ClientState)
    (h1 : initial_state url username password api_key = Except.ok s1)
    (h2 : apply_vcap_services name use_vcap env s1 = Except.ok s2) :
    (construct name url username password use_vcap api_key env =
        Except.error (WError.watsonException credentialsMissingMsg) ↔
      (s2.username = Val.vnone ∨ s2.password = Val.vnone) ∧ s2.api_key = Val.vnone) ∧
    construct "x" (Val.vstr "http://h") (Val.vstr "YOUR SERVICE USERNAME")
        (Val.vstr "secret") false Val.vnone none =
      Except.error (WError.watsonException credentialsMissingMsg) := by
  constructor
  · rw [construct_stages name url username password api_key use_vcap env s1 s2 h1 h2]
    unfold validate_credentials
    split
    · rename_i hcond
      simp [hcond]
    · rename_i hcond
      simp [hcond]
  · decide

/-- C1 witness: no credentials at all and no registry. -/
theorem c1_credentials_missing_witness :
    (construct "w" (Val.vstr "h") Val.vnone Val.vnone false Val.vnone none =
        Except.error (WError.watsonException credentialsMissingMsg) ↔
      ((ClientState.mk (Val.vstr "h") (some 0) Val.vnone Val.vnone Val.vnone
          none).username = Val.vnone ∨
        (ClientState.mk (Val.vstr "h") (some 0) Val.vnone Val.vnone Val.vnone
          none).password = Val.vnone) ∧
      (ClientState.mk (Val.vstr "h") (some 0) Val.vnone Val.vnone Val.vnone
        none).api_key = Val.vnone) ∧
    construct "x" (Val.vstr "http://h") (Val.vstr "YOUR SERVICE USERNAME")
        (Val.vstr "secret") false Val.vnone none =
      Except.error (WError.watsonException credentialsMissingMsg) :=
  c1_credentials_missing "w" (Val.vstr "h") Val.vnone Val.vnone Val.vnone false none
    (ClientState.mk (Val.vstr "h") (some 0) Val.vnone Val.vnone Val.vnone none)
    (ClientState.mk (Val.vstr "h") (some 0) Val.vnone Val.vnone Val.vnone none)
    (by decide) (by decide)

/-- C3: a 2xx response whose decoded JSON dict carries `status = "ERROR"` is
not returned but raised as a classified service error whose message comes
from `statusInfo` (default `"Unknown error"` when absent) and whose carried
status is 400, or 401 exactly when `statusInfo` is `"invalid-api-key"`. -/
theorem c3_disguised_error_classified (d : List (String × Val)) (sc : Nat) (info : String)
    (h200 : 200 ≤ sc) (h299 : sc ≤ 299)
    (hs : dictLookup d "status" = some (Val.vstr "ERROR")) :
    (dictLookup d "statusInfo" = some (Val.vstr info) →
      classify_response true (HttpResponse.mk sc (some (Val.vdict d))) =
        Except.error (ClassifiedError.serviceError ("Error: " ++ info)
          (if info = "invalid-api-key" then 401 else 400))) ∧
    (dictLookup d "statusInfo" = none →
      classify_response true (HttpResponse.mk sc (some (Val.vdict d))) =
        Except.error (ClassifiedError.serviceError "Error: Unknown error" 400)) := by
  constructor <;> intro hinfo <;>
    simp [classify_response, h200, h299, dictMember, hs, hinfo, eqStr]

/-- C3 witness: the spec's own example, a 200 body
`{"status": "ERROR", "statusInfo": "invalid-api-key"}`. -/
theorem c3_disguised_error_classified_witness :
    classify_response true (HttpResponse.mk 200 (some (Val.vdict
        [("status", Val.vstr "ERROR"), ("statusInfo", Val.vstr "invalid-api-key")]))) =
      Except.error (ClassifiedError.serviceError "Error: invalid-api-key" 401) := by
  simpa using (c3_disguised_error_classified
      [("status", Val.vstr "ERROR"), ("statusInfo", Val.vstr "invalid-api-key")]
      200 "invalid-api-key" (by decide) (by decide) (by decide)).1 (by decide)

/-- C4: a non-2xx response raises a classified error whose message is exactly
`"Error: " + message + ", Code: " + status`, with message the 401 literal
when the status is exactly 401, otherwise the body's `error` field overridden
by `error_message` when present, or `"Unknown error"` when the body does not
decode or neither field exists. -/
theorem c4_non_2xx_error_message (sc : Nat) (aj : Bool) (body : Option Val)
    (hout : ¬ (200 ≤ sc ∧ sc ≤ 299)) :
    (sc = 401 → classify_response aj (HttpResponse.mk sc body) =
        Except.error (ClassifiedError.serviceError
          ("Error: " ++ "Unauthorized: Access is denied due to invalid credentials" ++
            ", Code: " ++ toString sc) sc)) ∧
    (sc ≠ 401 → body = none → classify_response aj (HttpResponse.mk sc body) =
        Except.error (ClassifiedError.serviceError
          ("Error: " ++ "Unknown error" ++ ", Code: " ++ toString sc) sc)) ∧
    (∀ ej msg, sc ≠ 401 → body = some (Val.vdict ej) →
      dictLookup ej "error_message" = some (Val.vstr msg) →
      classify_response aj (HttpResponse.mk sc body) =
        Except.error (ClassifiedError.serviceError
          ("Error: " ++ msg ++ ", Code: " ++ toString sc) sc)) ∧
    (∀ ej msg, sc ≠ 401 → body = some (Val.vdict ej) →
      dictLookup ej "error_message" = none → dictLookup ej "error" = some (Val.vstr msg) →
      classify_response aj (HttpResponse.mk sc body) =
        Except.error (ClassifiedError.serviceError
          ("Error: " ++ msg ++ ", Code: " ++ toString sc) sc)) ∧
    (∀ ej, sc ≠ 401 → body = some (Val.vdict ej) →
      dictLookup ej "error_message" = none → dictLookup ej "error" = none →
      classify_response aj (HttpResponse.mk sc body) =
        Except.error (ClassifiedError.serviceError
          ("Error: " ++ "Unknown error" ++ ", Code: " ++ toString sc) sc)) := by
  refine ⟨?_, ?_, ?_, ?_, ?_⟩
  · intro h401
    subst h401
    simp [classify_response, hout, get_error_message]
  · intro hne hbody
    subst hbody
    simp [classify_response, hout, hne, get_error_message]
  · intro ej msg hne hbody hmsg
    subst hbody
    simp [classify_response, hout, hne, get_error_message, hmsg]
  · intro ej msg hne hbody hmsg herr
    subst hbody
    simp [classify_response, hout, hne, get_error_message, hmsg, herr]
  · intro ej hne hbody hmsg herr
    subst hbody
    simp [classify_response, hout, hne, get_error_message, hmsg, herr]

/-- C4 witness: the spec's own example, a 404 with body
`{"error_message": "not found"}`, plus a bare 401. -/
theorem c4_non_2xx_error_message_witness :
    classify_response true (HttpResponse.mk 404
        (some (Val.vdict [("error_message", Val.vstr "not found")]))) =
      Except.error (ClassifiedError.serviceError "Error: not found, Code: 404" 404) ∧
    classify_response false (HttpResponse.mk 401 none) =
      Except.error (ClassifiedError.serviceError
        "Error: Unauthorized: Access is denied due to invalid credentials, Code: 401" 401) := by
  constructor
  · simpa using (c4_non_2xx_error_message 404 true
      (some (Val.vdict [("error_message", Val.vstr "not found")])) (by decide)).2.2.1
      [("error_message", Val.vstr "not found")] "not found" (by decide) rfl (by decide)
  · simpa using (c4_non_2xx_error_message 401 false none (by decide)).1 rfl

/-- C6: with `use_vcap_services`, no explicit credentials, and a registry
whose element-0 binding for the service carries a credentials dict with
`apikey` and `url`, the constructed client's api key and base url are the
registry's values, and ApiKey mode is active (the key is present). -/
theorem c6_vcap_apikey_mode (name : String) (url uVal : Val) (k : String)
    (services binding creds : List (String × Val)) (rest : List Val)
    (hsvc : dictLookup services name = some (Val.vlist (Val.vdict binding :: rest)))
    (hcred : dictLookup binding "credentials" = some (Val.vdict creds))
    (hurl : dictLookup creds "url" = some uVal)
    (hkey : dictLookup creds "apikey" = some (Val.vstr k)) :
    (construct name url Val.vnone Val.vnone true Val.vnone (some services)).map
        (fun s => (s.api_key, s.url)) = Except.ok (Val.vstr k, uVal) ∧
    Val.vstr k ≠ Val.vnone := by
  refine ⟨?_, by simp⟩
  have h1 : initial_state url Val.vnone Val.vnone Val.vnone =
      Except.ok (ClientState.mk url (some 0) Val.vnone Val.vnone Val.vnone none) := by
    simp [initial_state, set_username_and_password, eqStr, freshJar]
  cases hU : dictLookup creds "username" with
  | none =>
    cases hP : dictLookup creds "password" with
    | none =>
      have h2 : apply_vcap_services name true (some services)
          (ClientState.mk url (some 0) Val.vnone Val.vnone Val.vnone none) =
          Except.ok (ClientState.mk uVal (some 0) (Val.vstr k) Val.vnone Val.vnone
            (some (Val.vdict creds))) := by
        simp [apply_vcap_services, load_from_vcap_services, truthy, hsvc, hcred, hurl,
          hkey, hU, hP]
      rw [construct_stages name url Val.vnone Val.vnone Val.vnone true (some services)
        _ _ h1 h2]
      simp [validate_credentials, Except.map]
    | some pv =>
      have h2 : apply_vcap_services name true (some services)
          (ClientState.mk url (some 0) Val.vnone Val.vnone Val.vnone none) =
          Except.ok (ClientState.mk uVal (some 0) (Val.vstr k) Val.vnone pv
            (some (Val.vdict creds))) := by
        simp [apply_vcap_services, load_from_vcap_services, truthy, hsvc, hcred, hurl,
          hkey, hU, hP]
      rw [construct_stages name url Val.vnone Val.vnone Val.vnone true (some services)
        _ _ h1 h2]
      simp [validate_credentials, Except.map]
  | some uv =>
    cases hP : dictLookup creds "password" with
    | none =>
      have h2 : apply_vcap_services name true (some services)
          (ClientState.mk url (some 0) Val.vnone Val.vnone Val.vnone none) =
          Except.ok (ClientState.mk uVal (some 0) (Val.vstr k) uv Val.vnone
            (some (Val.vdict creds))) := by
        simp [apply_vcap_services, load_from_vcap_services, truthy, hsvc, hcred, hurl,
          hkey, hU, hP]
      rw [construct_stages name url Val.vnone Val.vnone Val.vnone true (some services)
        _ _ h1 h2]
      simp [validate_credentials, Except.map]
    | some pv =>
      have h2 : apply_vcap_services name true (some services)
          (ClientState.mk url (some 0) Val.vnone Val.vnone Val.vnone none) =
          Except.ok (ClientState.mk uVal (some 0) (Val.vstr k) uv pv
            (some (Val.vdict creds))) := by
        simp [apply_vcap_services, load_from_vcap_services, truthy, hsvc, hcred, hurl,
          hkey, hU, hP]
      rw [construct_stages name url Val.vnone Val.vnone Val.vnone true (some services)
        _ _ h1 h2]
      simp [validate_credentials, Except.map]

/-- C6 witness: a concrete registry with `apikey` and `url`. -/
theorem c6_vcap_apikey_mode_witness :
    (construct "w" (Val.vstr "http://h") Val.vnone Val.vnone true Val.vnone
        (some [("w", Val.vlist [Val.vdict [("credentials", Val.vdict
          [("url", Val.vstr "https://svc"), ("apikey", Val.vstr "k1")])]])])).map
        (fun s => (s.api_key, s.url)) =
      Except.ok (Val.vstr "k1", Val.vstr "https://svc") ∧
    Val.vstr "k1" ≠ Val.vnone :=
  c6_vcap_apikey_mode "w" (Val.vstr "http://h") (Val.vstr "https://svc") "k1"
    [("w", Val.vlist [Val.vdict [("credentials", Val.vdict
      [("url", Val.vstr "https://svc"), ("apikey", Val.vstr "k1")])]])]
    [("credentials", Val.vdict [("url", Val.vstr "https://svc"),
      ("apikey", Val.vstr "k1")])]
    [("url", Val.vstr "https://svc"), ("apikey", Val.vstr "k1")] []
    (by decide) (by decide) (by decide) (by decide)

/-- C8: without an override path the text/HTML router picks `/url/URL<suffix>`
(adding `url` to the params) when `url` is present, else `/html/HTML<suffix>`
when `html` is present, else `/text/Text<suffix>` when `text` is present,
else fails with `WatsonInvalidArgument`; with only `text="hello"` and suffix
`"Sentiment"` the path is `/text/TextSentiment`, params carry
`outputMode=json`, and the form body before sanitization is
`{"html": None, "text": "hello"}`. -/
theorem c8_html_router (url html text : Val) (suffix : String) :
    (truthy url = true →
      alchemy_html_request (Val.vstr suffix) url html text Val.vnone (Val.vstr "POST")
          Val.vnone =
        Except.ok (AlchemyHtmlCall.mk (Val.vstr "POST") (Val.vstr ("/url/URL" ++ suffix))
          (Val.vdict [("outputMode", Val.vstr "json"), ("url", url)])
          (Val.vdict [("html", html), ("text", text)])
          (Val.vdict [("content-type", Val.vstr "application/x-www-form-urlencoded")])
          true)) ∧
    (truthy url = false → truthy html = true →
      alchemy_html_request (Val.vstr suffix) url html text Val.vnone (Val.vstr "POST")
          Val.vnone =
        Except.ok (AlchemyHtmlCall.mk (Val.vstr "POST") (Val.vstr ("/html/HTML" ++ suffix))
          (Val.vdict [("outputMode", Val.vstr "json")])
          (Val.vdict [("html", html), ("text", text)])
          (Val.vdict [("content-type", Val.vstr "application/x-www-form-urlencoded")])
          true)) ∧
    (truthy url = false → truthy html = false → truthy text = true →
      alchemy_html_request (Val.vstr suffix) url html text Val.vnone (Val.vstr "POST")
          Val.vnone =
        Except.ok (AlchemyHtmlCall.mk (Val.vstr "POST") (Val.vstr ("/text/Text" ++ suffix))
          (Val.vdict [("outputMode", Val.vstr "json")])
          (Val.vdict [("html", html), ("text", text)])
          (Val.vdict [("content-type", Val.vstr "application/x-www-form-urlencoded")])
          true)) ∧
    (truthy url = false → truthy html = false → truthy text = false →
      alchemy_html_request (Val.vstr suffix) url html text Val.vnone (Val.vstr "POST")
          Val.vnone =
        Except.error (WError.watsonInvalidArgument "url, html or text must be specified")) ∧
    alchemy_html_request (Val.vstr "Sentiment") Val.vnone Val.vnone (Val.vstr "hello")
        Val.vnone (Val.vstr "POST") Val.vnone =
      Except.ok (AlchemyHtmlCall.mk (Val.vstr "POST") (Val.vstr "/text/TextSentiment")
        (Val.vdict [("outputMode", Val.vstr "json")])
        (Val.vdict [("html", Val.vnone), ("text", Val.vstr "hello")])
        (Val.vdict [("content-type", Val.vstr "application/x-www-form-urlencoded")])
        true) := by
  refine ⟨?_, ?_, ?_, ?_, by decide⟩
  · intro h1
    simp [alchemy_html_request, dictSet, dictMember, dictLookup, convert_boolean_value, h1]
  · intro h1 h2
    simp [alchemy_html_request, dictSet, dictMember, dictLookup, convert_boolean_value,
      h1, h2]
  · intro h1 h2 h3
    simp [alchemy_html_request, dictSet, dictMember, dictLookup, convert_boolean_value,
      h1, h2, h3]
  · intro h1 h2 h3
    simp [alchemy_html_request, dictSet, dictMember, dictLookup, convert_boolean_value,
      h1, h2, h3]

/-- C8 witness: each routing branch at a concrete input. -/
theorem c8_html_router_witness :
    alchemy_html_request (Val.vstr "S") (Val.vstr "http://a") (Val.vstr "<p>")
        (Val.vstr "t") Val.vnone (Val.vstr "POST") Val.vnone =
      Except.ok (AlchemyHtmlCall.mk (Val.vstr "POST") (Val.vstr "/url/URLS")
        (Val.vdict [("outputMode", Val.vstr "json"), ("url", Val.vstr "http://a")])
        (Val.vdict [("html", Val.vstr "<p>"), ("text", Val.vstr "t")])
        (Val.vdict [("content-type", Val.vstr "application/x-www-form-urlencoded")])
        true) ∧
    alchemy_html_request (Val.vstr "S") Val.vnone (Val.vstr "<p>") (Val.vstr "t")
        Val.vnone (Val.vstr "POST") Val.vnone =
      Except.ok (AlchemyHtmlCall.mk (Val.vstr "POST") (Val.vstr "/html/HTMLS")
        (Val.vdict [("outputMode", Val.vstr "json")])
        (Val.vdict [("html", Val.vstr "<p>"), ("text", Val.vstr "t")])
        (Val.vdict [("content-type", Val.vstr "application/x-www-form-urlencoded")])
        true) ∧
    alchemy_html_request (Val.vstr "S") Val.vnone Val.vnone (Val.vstr "t")
        Val.vnone (Val.vstr "POST") Val.vnone =
      Except.ok (AlchemyHtmlCall.mk (Val.vstr "POST") (Val.vstr "/text/TextS")
        (Val.vdict [("outputMode", Val.vstr "json")])
        (Val.vdict [("html", Val.vnone), ("text", Val.vstr "t")])
        (Val.vdict [("content-type", Val.vstr "application/x-www-form-urlencoded")])
        true) ∧
    alchemy_html_request (Val.vstr "S") Val.vnone Val.vnone Val.vnone
        Val.vnone (Val.vstr "POST") Val.vnone =
      Except.error (WError.watsonInvalidArgument "url, html or text must be specified") :=
  ⟨(c8_html_router (Val.vstr "http://a") (Val.vstr "<p>") (Val.vstr "t") "S").1
      (by decide),
   (c8_html_router Val.vnone (Val.vstr "<p>") (Val.vstr "t") "S").2.1
      (by decide) (by decide),
   (c8_html_router Val.vnone Val.vnone (Val.vstr "t") "S").2.2.1
      (by decide) (by decide) (by decide),
   (c8_html_router Val.vnone Val.vnone Val.vnone "S").2.2.2.1
      (by decide) (by decide) (by decide)⟩

end Watson
